import Mathlib

/-!
Shallow embedding of the Kissan Dost advisory backend (`src/backend/main.py`).

The backend is a single FastAPI module.  Its behavioural core is the `chat`
handler, which
  * fetches weather context (`get_weather`) and a static price table
    (`get_mandi_prices`),
  * merges them into a textual context blob,
  * selects a text or vision model based on presence of an uploaded image,
  * assembles a two-message prompt (system instruction + user message),
  * invokes the completion provider with fixed generation parameters, and
  * normalises the provider's reply into the client-facing JSON shape.

External I/O is made explicit: the weather HTTP call is represented by a
`TransportResult` argument (either a status/JSON pair or a raised transport
exception), and the completion provider by a function argument from the
assembled request to a result.  Raised Python exceptions are modelled with
`Except`: an uncaught exception makes the whole handler fail.
-/

namespace KissanDost

/-- Python values as they appear in this program: JSON decoded by
`resp.json()` and the pieces interpolated into f-strings.  `str` carries a
Python string, `int` a Python integer, `dict` preserves insertion order. -/
inductive PyVal where
  | pyNone : PyVal
  | int : Int → PyVal
  | str : String → PyVal
  | list : List PyVal → PyVal
  | dict : List (String × PyVal) → PyVal
deriving Repr

/-- Python `repr`, as used by `str.format`/f-strings on non-string values.
Dictionaries render as `{'key': value, ...}`; string escaping inside `repr`
of a string is not modelled (no claim depends on it). -/
def pyRepr : PyVal → String
  | .pyNone => "None"
  | .int n => toString n
  | .str s => "'" ++ s ++ "'"
  | .list xs =>
      "[" ++ String.intercalate ", " (xs.attach.map fun x => pyRepr x.1) ++ "]"
  | .dict es =>
      "\x7b" ++
        String.intercalate ", "
          (es.attach.map fun e => "'" ++ e.1.1 ++ "': " ++ pyRepr e.1.2) ++
      "\x7d"
decreasing_by
  · have h := List.sizeOf_lt_of_mem x.2
    simp only [PyVal.list.sizeOf_spec] at *
    omega
  · have h := List.sizeOf_lt_of_mem e.2
    have h2 : sizeOf e.1.2 < sizeOf e.1 := by
      obtain ⟨a, b⟩ := e.1
      simp only [Prod.mk.sizeOf_spec]
      omega
    simp only [PyVal.dict.sizeOf_spec] at *
    omega

/-- Python `str` conversion as performed by an f-string interpolation:
strings are inserted verbatim, everything else via `repr`. -/
def pyStr : PyVal → String
  | .str s => s
  | v => pyRepr v

/-- Python dictionary subscript `v[k]` (first binding wins; the source only
subscripts dictionaries whose keys are present). -/
def pyGet (v : PyVal) (k : String) : Option PyVal :=
  match v with
  | .dict es => es.lookup k
  | _ => none

/-- An uploaded file as received by the handler (`UploadFile`): filename,
declared media type, and the bytes returned by `await image.read()`
(byte values `0`–`255`). -/
structure UploadedFile where
  filename : String
  contentType : String
  bytes : List Nat
deriving Repr, DecidableEq

/-- The inbound multipart form of `POST /api/chat`, with the source's
declared defaults. -/
structure ChatRequest where
  message : String
  language : String := "ur"
  image : Option UploadedFile := none
  latitude : ℚ := 31.5204
  longitude : ℚ := 74.3587
deriving Repr, DecidableEq

/-- Outcome of the outbound weather HTTP call: a response with a status code
and decoded JSON body, or a transport failure raised as an exception. -/
inductive TransportResult where
  | ok : Nat → PyVal → TransportResult
  | exn : TransportResult
deriving Repr

/-- Function `get_weather` (main.py lines 53–58): returns `resp.json()` on status 200
and `None` otherwise; a transport exception is not caught and propagates. -/
def get_weather (resp : TransportResult) : Except Unit (Option PyVal) :=
  match resp with
  | .exn => .error ()
  | .ok status json => .ok (if status = 200 then some json else none)

/-- One commodity entry of the price table:
`{"price": ..., "unit": ..., "trend": ...}`. -/
structure PriceEntry where
  price : Int
  unit : String
  trend : String
deriving Repr, DecidableEq

/-- Function `get_mandi_prices` (main.py lines 61–69): the static five-commodity
table, in the source's insertion order. -/
def get_mandi_prices : List (String × PriceEntry) :=
  [ ("wheat", ⟨4200, "40kg", "up"⟩),
    ("cotton", ⟨8500, "40kg", "stable"⟩),
    ("rice", ⟨5800, "40kg", "up"⟩),
    ("sugarcane", ⟨350, "40kg", "stable"⟩),
    ("maize", ⟨2800, "40kg", "down"⟩) ]

/-- Commodity lookup `prices[name]`; the source only looks up keys that are
present in the table, so the default entry is never observed there. -/
def priceLookup (prices : List (String × PriceEntry)) (name : String) : PriceEntry :=
  (prices.lookup name).getD ⟨0, "", ""⟩

/-- The context f-string of `chat` (main.py lines 86–90):
a triple-quoted f-string interpolating `weather['current']` (or `'N/A'` when
`weather` is `None`) and the wheat/cotton/rice prices. -/
def build_context (weather : Option PyVal) (prices : List (String × PriceEntry)) : String :=
  "\nCurrent Weather: " ++
    (match weather with
      | none => "N/A"
      | some w => pyStr ((pyGet w "current").getD .pyNone)) ++
  "\nMandi Prices (PKR): Wheat: " ++ toString (priceLookup prices "wheat").price ++
    "/" ++ (priceLookup prices "wheat").unit ++ ", \nCotton: " ++
    toString (priceLookup prices "cotton").price ++ ", Rice: " ++
    toString (priceLookup prices "rice").price ++ "\n"

/-- The constant `SYSTEM_PROMPT` (main.py lines 23–50), transcribed verbatim. -/
def SYSTEM_PROMPT : String :=
  "You are Kissan Dost (کسان دوست), an expert Agricultural Advisor AI for Pakistani farmers.\n" ++
  "\n" ++
  "MISSION: Eliminate information asymmetry, maximize yield, profitability, and climate resilience.\n" ++
  "\n" ++
  "ALWAYS structure your response in EXACTLY this format with these three sections:\n" ++
  "\n" ++
  "## I. فوری ہدایت (Immediate Action)\n" ++
  "[Critical steps the farmer must take RIGHT NOW - be specific and urgent]\n" ++
  "\n" ++
  "## II. تفصیلی تجویز (Detailed Recommendation)\n" ++
  "[Numbered comprehensive advice including:\n" ++
  "- Specific chemical names and dosages (e.g., Mancozeb 75% WP @ 2.5g/L)\n" ++
  "- Organic alternatives\n" ++
  "- Application timing and frequency\n" ++
  "- Prevention measures]\n" ++
  "\n" ++
  "## III. منڈی بھاؤ اور موسمی سیاق (Market & Climate Context)\n" ++
  "[Include:\n" ++
  "- Current estimated market rates for relevant crops in PKR\n" ++
  "- Weather-related advice\n" ++
  "- Best time to sell]\n" ++
  "\n" ++
  "RULES:\n" ++
  "- Respond in the SAME LANGUAGE as the query (Urdu/Punjabi/English/Sindhi)\n" ++
  "- Be confident, direct, actionable - NO filler\n" ++
  "- Include specific product names available in Pakistan\n" ++
  "- Never ask clarifying questions - provide complete advice immediately\n" ++
  "- Use local Pakistani agricultural context and available products"

/-- A part of a multi-part user message: `{"type": "text", ...}` or
`{"type": "image_url", "image_url": {"url": ...}}`. -/
inductive ContentPart where
  | textPart : String → ContentPart
  | imageUrl : String → ContentPart
deriving Repr, DecidableEq

/-- Content of one completion message: a plain string, or (vision case) a
list of typed parts. -/
inductive Content where
  | text : String → Content
  | parts : List ContentPart → Content
deriving Repr, DecidableEq

/-- A role-tagged completion message. -/
structure Message where
  role : String
  content : Content
deriving Repr, DecidableEq

/-- One sextet character of standard base64 (`A`–`Z`, `a`–`z`, `0`–`9`,
`+`, `/`). -/
def b64Char (n : Nat) : Char :=
  if n < 26 then Char.ofNat (65 + n)
  else if n < 52 then Char.ofNat (97 + (n - 26))
  else if n < 62 then Char.ofNat (48 + (n - 52))
  else if n = 62 then '+'
  else '/'

/-- Python `base64.b64encode(...).decode()`: standard base64 with `=`
padding over a byte sequence. -/
def b64encode : List Nat → String
  | [] => ""
  | [a] =>
      String.mk [b64Char (a / 4), b64Char ((a % 4) * 16), '=', '=']
  | [a, b] =>
      String.mk [b64Char (a / 4), b64Char ((a % 4) * 16 + b / 16),
        b64Char ((b % 16) * 4), '=']
  | a :: b :: c :: rest =>
      String.mk [b64Char (a / 4), b64Char ((a % 4) * 16 + b / 16),
        b64Char ((b % 16) * 4 + c / 64), b64Char (c % 64)] ++ b64encode rest

/-- Truthiness of the optional `image` parameter at `if image:`
(main.py line 99): Python `None` is falsy, while an `UploadFile` object is
truthy regardless of how many bytes it holds (the class defines no
`__bool__`/`__len__`). -/
def imageTruthy (image : Option UploadedFile) : Bool :=
  image.isSome

/-- The text model id chosen when no image is attached. -/
def textModelId : String := "llama-3.3-70b-versatile"

/-- The vision model id chosen when an image is attached. -/
def visionModelId : String := "llama-3.2-90b-vision-preview"

/-- The `model` variable of `chat` (main.py lines 109–111). -/
def chatModel (req : ChatRequest) : String :=
  if imageTruthy req.image then visionModelId else textModelId

/-- The message list of `chat` (main.py lines 93–107): built as
system + user text message, then — when an image is attached — the user
message's content is overwritten in place with the two-part vision content. -/
def buildMessages (req : ChatRequest) (context : String) : List Message :=
  let base : List Message :=
    [ { role := "system", content := .text SYSTEM_PROMPT },
      { role := "user",
        content := .text ("Context:\n" ++ context ++ "\n\nFarmer Query (" ++
          req.language ++ "): " ++ req.message) } ]
  match req.image with
  | none => base
  | some img =>
      base.set 1
        { role := "user",
          content := .parts
            [ .textPart ("Context:\n" ++ context ++
                "\n\nAnalyze this crop image and provide advice (" ++
                req.language ++ "): " ++ req.message),
              .imageUrl ("data:image/jpeg;base64," ++ b64encode img.bytes) ] }

/-- The request handed to `groq.chat.completions.create`
(main.py lines 113–118).  `temperature` and `max_tokens` are passed
explicitly in the source; `stream := false` and `n := 1` record the client
library's defaults (no streaming, a single completion). -/
structure CompletionRequest where
  model : String
  messages : List Message
  temperature : ℚ
  max_tokens : Nat
  stream : Bool
  n : Nat
deriving Repr, DecidableEq

/-- Provider-reported token usage. -/
structure CompletionUsage where
  total_tokens : Nat
deriving Repr, DecidableEq

/-- One generated choice: `choice.message.content`. -/
structure ChoiceMessage where
  content : String
deriving Repr, DecidableEq

/-- One element of `response.choices`. -/
structure Choice where
  message : ChoiceMessage
deriving Repr, DecidableEq

/-- The completion provider's successful reply. -/
structure CompletionResponse where
  choices : List Choice
  usage : CompletionUsage
deriving Repr, DecidableEq

/-- The JSON object returned by a successful `chat` call
(main.py lines 120–126). -/
structure ChatResponse where
  response : String
  weather : Option PyVal
  prices : List (String × PriceEntry)
  model : String
  latency_ms : Nat
deriving Repr

/-- The completion request `chat` assembles for a given inbound request and
fetched weather value. -/
def chatRequestOf (req : ChatRequest) (weather : Option PyVal) : CompletionRequest :=
  { model := chatModel req
    messages := buildMessages req (build_context weather get_mandi_prices)
    temperature := 3 / 10
    max_tokens := 2000
    stream := false
    n := 1 }

/-- The `chat` handler (main.py lines 71–126).  `weatherResp` is the outcome
of the outbound weather HTTP call and `create` the completion provider
(`groq.chat.completions.create`), which may itself raise.  `Except.error`
is an exception escaping the handler (an HTTP 500 at the transport layer);
`response.choices[0]` on an empty list likewise raises. -/
def chat (req : ChatRequest) (weatherResp : TransportResult)
    (create : CompletionRequest → Except Unit CompletionResponse) :
    Except Unit ChatResponse :=
  match get_weather weatherResp with
  | .error e => .error e
  | .ok weather =>
    let creq := chatRequestOf req weather
    match create creq with
    | .error e => .error e
    | .ok response =>
      match response.choices with
      | [] => .error ()
      | choice :: _ =>
        .ok { response := choice.message.content
              weather := weather
              prices := get_mandi_prices
              model := creq.model
              latency_ms := response.usage.total_tokens }

/-- The `GET /api/prices` handler (main.py lines 128–131). -/
def pricesEndpoint : List (String × PriceEntry) :=
  get_mandi_prices

/-- The `GET /api/weather` handler (main.py lines 133–136). -/
def weatherEndpoint (resp : TransportResult) : Except Unit (Option PyVal) :=
  get_weather resp

/-- Substring containment on strings, via infix of the character lists. -/
def strContains (s t : String) : Prop :=
  t.data <:+: s.data

instance (s t : String) : Decidable (strContains s t) :=
  inferInstanceAs (Decidable (t.data <:+: s.data))

/-- Prefix relation on strings, via prefix of the character lists. -/
def strIsPrefix (p s : String) : Prop :=
  p.data <+: s.data

/-- A sample completion-provider reply used to instantiate theorems with
hypotheses at concrete inputs. -/
def sampleResponse : CompletionResponse :=
  { choices := [⟨⟨"ok"⟩⟩], usage := ⟨42⟩ }

/-- C1 (amended): the modality decision at `if image:` selects the text
model exactly when no image field is present, and the vision model whenever
an `UploadFile` is present — whatever its byte content, including zero
bytes, because the branch tests object truthiness, not byte length. -/
theorem c1_modality (req : ChatRequest) :
    (req.image = none → chatModel req = textModelId) ∧
    (∀ img : UploadedFile, req.image = some img → chatModel req = visionModelId) := by
  constructor
  · intro h
    simp [chatModel, imageTruthy, h]
  · intro img h
    simp [chatModel, imageTruthy, h]

/-- C1 witness: a request without an image resolves to the text model, and
a request with a two-byte image resolves to the vision model. -/
theorem c1_modality_witness :
    chatModel { message := "q" } = textModelId ∧
    chatModel { message := "q", image := some ⟨"a.jpg", "image/jpeg", [1, 2]⟩ } = visionModelId :=
  ⟨(c1_modality { message := "q" }).1 rfl,
   (c1_modality { message := "q", image := some ⟨"a.jpg", "image/jpeg", [1, 2]⟩ }).2 _ rfl⟩

/-- C1 counterexample: an explicitly attached zero-byte image does NOT
resolve to the text model — the vision model is selected, contrary to the
claim's edge case. -/
theorem c1_zero_byte_counterexample :
    chatModel { message := "hi", image := some ⟨"leaf.jpg", "image/jpeg", []⟩ } ≠ textModelId := by
  decide

/-- C9: context merging is deterministic — equal weather and price inputs
produce byte-identical context strings; `build_context` consumes nothing
besides its two arguments (no timestamp or randomness exists in the
embedding of main.py lines 86–90). -/
theorem c9_context_deterministic (w₁ w₂ : Option PyVal)
    (p₁ p₂ : List (String × PriceEntry)) (hw : w₁ = w₂) (hp : p₁ = p₂) :
    build_context w₁ p₁ = build_context w₂ p₂ := by
  rw [hw, hp]

/-- C9 witness: two calls on the null weather value and the static table
agree. -/
theorem c9_context_deterministic_witness :
    build_context none get_mandi_prices = build_context none get_mandi_prices :=
  c9_context_deterministic none none get_mandi_prices get_mandi_prices rfl rfl

/-- C2 (amended): when the weather provider answers with a non-success HTTP
status, the weather component is null, the overall request still succeeds
(given a successful completion call with at least one choice), and the
response's prices field is the fully populated static table; a
transport-level failure, by contrast, raises an uncaught exception and
fails the whole request. -/
theorem c2_weather_soft_failure (req : ChatRequest) (status : Nat) (json : PyVal)
    (create : CompletionRequest → Except Unit CompletionResponse)
    (presp : CompletionResponse) (c : Choice) (cs : List Choice)
    (hstatus : ¬ status = 200)
    (hcreate : create (chatRequestOf req none) = .ok presp)
    (hchoices : presp.choices = c :: cs) :
    chat req (.ok status json) create =
      .ok { response := c.message.content, weather := none,
            prices := get_mandi_prices, model := chatModel req,
            latency_ms := presp.usage.total_tokens } ∧
    chat req .exn create = .error () := by
  constructor
  · have hw : get_weather (.ok status json) = .ok none := by
      simp [get_weather, hstatus]
    simp only [chat, hw]
    rw [hcreate]
    simp [hchoices, chatRequestOf]
  · simp [chat, get_weather]

/-- C2 witness: a concrete 500-status weather reply yields a successful
response with null weather and the full price table, while a transport
exception makes the same request fail. -/
theorem c2_weather_soft_failure_witness :
    chat { message := "hi" } (.ok 500 (.dict [])) (fun _ => .ok sampleResponse) =
      .ok { response := "ok", weather := none, prices := get_mandi_prices,
            model := chatModel { message := "hi" },
            latency_ms := sampleResponse.usage.total_tokens } ∧
    chat { message := "hi" } .exn (fun _ => .ok sampleResponse) = .error () :=
  c2_weather_soft_failure { message := "hi" } 500 (.dict [])
    (fun _ => .ok sampleResponse) sampleResponse ⟨⟨"ok"⟩⟩ [] (by decide) rfl rfl

/-- C2 counterexample: a transport failure of the weather call is fatal —
the handler returns an error instead of succeeding with null weather, so
the claim's "transport failure" half fails on the code. -/
theorem c2_transport_failure_counterexample :
    chat { message := "hi" } TransportResult.exn (fun _ => .ok sampleResponse) = .error () := by
  simp [chat, get_weather]

/-- C3: for every request and every fetched weather value, the assembled
message sequence has exactly two entries and entry 0 is the system message
carrying `SYSTEM_PROMPT` verbatim. -/
theorem c3_system_message_first (req : ChatRequest) (weather : Option PyVal) :
    (chatRequestOf req weather).messages.length = 2 ∧
    (chatRequestOf req weather).messages.head? =
      some { role := "system", content := .text SYSTEM_PROMPT } := by
  cases h : req.image <;>
    simp [chatRequestOf, buildMessages, h]

/-- C6: for every request without an image, the user message is the single
text block built from the context blob, the language tag and the query. -/
theorem c6_text_user_message (req : ChatRequest) (weather : Option PyVal)
    (h : req.image = none) :
    (chatRequestOf req weather).messages =
      [ { role := "system", content := .text SYSTEM_PROMPT },
        { role := "user", content := .text ("Context:\n" ++
            build_context weather get_mandi_prices ++ "\n\nFarmer Query (" ++
            req.language ++ "): " ++ req.message) } ] := by
  simp [chatRequestOf, buildMessages, h]

/-- C6 witness: a concrete image-free request assembles exactly that pair
of messages. -/
theorem c6_text_user_message_witness :
    (chatRequestOf { message := "gandum ka ilaj" } none).messages =
      [ { role := "system", content := .text SYSTEM_PROMPT },
        { role := "user", content := .text ("Context:\n" ++
            build_context none get_mandi_prices ++ "\n\nFarmer Query (" ++
            "ur" ++ "): " ++ "gandum ka ilaj") } ] :=
  c6_text_user_message { message := "gandum ka ilaj" } none rfl

/-- C7: every completion invocation carries temperature 3/10, a 2000-token
output cap, no streaming, a single completion, the selected model id and
the assembled two-message array; and the handler consults the provider only
at that assembled request. -/
theorem c7_generation_parameters (req : ChatRequest) (weather : Option PyVal) :
    (chatRequestOf req weather).temperature = 3 / 10 ∧
    (chatRequestOf req weather).max_tokens = 2000 ∧
    (chatRequestOf req weather).stream = false ∧
    (chatRequestOf req weather).n = 1 ∧
    (chatRequestOf req weather).model = chatModel req ∧
    (chatRequestOf req weather).messages =
      buildMessages req (build_context weather get_mandi_prices) ∧
    (chatRequestOf req weather).messages.length = 2 ∧
    (∀ (wr : TransportResult)
        (create₁ create₂ : CompletionRequest → Except Unit CompletionResponse),
      get_weather wr = .ok weather →
      create₁ (chatRequestOf req weather) = create₂ (chatRequestOf req weather) →
      chat req wr create₁ = chat req wr create₂) := by
  refine ⟨rfl, rfl, rfl, rfl, rfl, rfl, ?_, ?_⟩
  · cases h : req.image <;>
      simp [chatRequestOf, buildMessages, h]
  · intro wr create₁ create₂ hw hagree
    simp [chat, hw, hagree]

/-- C7 witness: the parameters at a concrete request and weather value,
with two providers that agree at the assembled request. -/
theorem c7_generation_parameters_witness :
    (chatRequestOf { message := "hi" } none).temperature = 3 / 10 ∧
    chat { message := "hi" } (.ok 404 (.dict [])) (fun _ => .ok sampleResponse) =
      chat { message := "hi" } (.ok 404 (.dict [])) (fun _ => .ok sampleResponse) :=
  ⟨(c7_generation_parameters { message := "hi" } none).1,
   (c7_generation_parameters { message := "hi" } none).2.2.2.2.2.2.2
     (.ok 404 (.dict [])) (fun _ => .ok sampleResponse) (fun _ => .ok sampleResponse)
     (by simp [get_weather]) rfl⟩

/-- A prefix relation holds for the left operand of an append. -/
theorem strIsPrefix_append (p t : String) : strIsPrefix p (p ++ t) := by
  unfold strIsPrefix
  rw [String.data_append]
  exact List.prefix_append _ _

/-- Shape of every successful `chat` run: the weather fetch succeeded, the
provider was consulted at the assembled request and answered with at least
one choice, and the response record is the normalisation of those values. -/
theorem chat_ok_shape (req : ChatRequest) (wr : TransportResult)
    (create : CompletionRequest → Except Unit CompletionResponse) (r : ChatResponse)
    (hr : chat req wr create = .ok r) :
    ∃ (w : Option PyVal) (presp : CompletionResponse) (c : Choice) (cs : List Choice),
      get_weather wr = .ok w ∧
      create (chatRequestOf req w) = .ok presp ∧
      presp.choices = c :: cs ∧
      r = { response := c.message.content, weather := w,
            prices := get_mandi_prices, model := chatModel req,
            latency_ms := presp.usage.total_tokens } := by
  cases hgw : get_weather wr with
  | error e =>
      simp [chat, hgw] at hr
  | ok w =>
      cases hc : create (chatRequestOf req w) with
      | error e =>
          simp [chat, hgw, hc] at hr
      | ok presp =>
          cases hch : presp.choices with
          | nil =>
              simp [chat, hgw, hc, hch] at hr
          | cons c cs =>
              simp only [chat, hgw, hc, hch, Except.ok.injEq] at hr
              exact ⟨w, presp, c, cs, rfl, hc, hch,
                by rw [← hr]; simp [chatRequestOf]⟩

/-- C4: for every request carrying an image, the assembled user message is
the two-part list text-then-image, the image URL is the JPEG data URI
prefix followed by the base64 encoding of the attachment bytes, and the
declared media type of the attachment has no influence on the assembled
request. -/
theorem c4_vision_user_message (req : ChatRequest) (weather : Option PyVal)
    (img : UploadedFile) (h : req.image = some img) :
    (chatRequestOf req weather).messages =
      [ { role := "system", content := .text SYSTEM_PROMPT },
        { role := "user", content := .parts
            [ .textPart ("Context:\n" ++ build_context weather get_mandi_prices ++
                "\n\nAnalyze this crop image and provide advice (" ++
                req.language ++ "): " ++ req.message),
              .imageUrl ("data:image/jpeg;base64," ++ b64encode img.bytes) ] } ] ∧
    strIsPrefix "data:image/jpeg;base64," ("data:image/jpeg;base64," ++ b64encode img.bytes) ∧
    (∀ declaredType : String,
      chatRequestOf { req with image := some { img with contentType := declaredType } } weather =
        chatRequestOf req weather) := by
  refine ⟨?_, strIsPrefix_append _ _, ?_⟩
  · simp [chatRequestOf, buildMessages, h]
  · intro d
    simp [chatRequestOf, buildMessages, chatModel, imageTruthy, h]

/-- C4 witness: a concrete request with a two-byte attachment declared as
PNG still yields the JPEG-tagged data URI and the two-part content. -/
theorem c4_vision_user_message_witness :
    (chatRequestOf { message := "m", image := some ⟨"x.jpg", "image/png", [104, 105]⟩ } none).messages =
      [ { role := "system", content := .text SYSTEM_PROMPT },
        { role := "user", content := .parts
            [ .textPart ("Context:\n" ++ build_context none get_mandi_prices ++
                "\n\nAnalyze this crop image and provide advice (" ++
                "ur" ++ "): " ++ "m"),
              .imageUrl ("data:image/jpeg;base64," ++ b64encode [104, 105]) ] } ] ∧
    strIsPrefix "data:image/jpeg;base64," ("data:image/jpeg;base64," ++ b64encode [104, 105]) :=
  ⟨(c4_vision_user_message { message := "m", image := some ⟨"x.jpg", "image/png", [104, 105]⟩ }
      none ⟨"x.jpg", "image/png", [104, 105]⟩ rfl).1,
   (c4_vision_user_message { message := "m", image := some ⟨"x.jpg", "image/png", [104, 105]⟩ }
      none ⟨"x.jpg", "image/png", [104, 105]⟩ rfl).2.1⟩

/-- C5: on every successful chat request, the `latency_ms` field equals the
provider's reported total token count; no elapsed-time measurement exists
anywhere in the handler. -/
theorem c5_latency_is_token_count (req : ChatRequest) (weatherResp : TransportResult)
    (create : CompletionRequest → Except Unit CompletionResponse)
    (w : Option PyVal) (presp : CompletionResponse) (r : ChatResponse)
    (hw : get_weather weatherResp = .ok w)
    (hcreate : create (chatRequestOf req w) = .ok presp)
    (hr : chat req weatherResp create = .ok r) :
    r.latency_ms = presp.usage.total_tokens := by
  obtain ⟨w', presp', c, cs, hw', hc', hch', hshape⟩ :=
    chat_ok_shape req weatherResp create r hr
  have hww : w' = w := by
    rw [hw] at hw'
    exact (Except.ok.inj hw').symm
  subst hww
  have hpp : presp' = presp := by
    rw [hcreate] at hc'
    exact (Except.ok.inj hc').symm
  subst hpp
  rw [hshape]

/-- C5 witness: a concrete successful run whose provider reports 42 total
tokens yields `latency_ms = 42`. -/
theorem c5_latency_is_token_count_witness :
    ({ response := "ok", weather := some (.dict []), prices := get_mandi_prices,
       model := chatModel { message := "hi" }, latency_ms := 42 } : ChatResponse).latency_ms =
      sampleResponse.usage.total_tokens :=
  c5_latency_is_token_count { message := "hi" } (.ok 200 (.dict []))
    (fun _ => .ok sampleResponse) (some (.dict [])) sampleResponse _ rfl rfl rfl

/-- C8: the price table is the fixed, fully populated five-commodity
mapping with the stated wheat entry; the prices endpoint returns exactly
it, and every successful chat response carries it unchanged. -/
theorem c8_price_table (req : ChatRequest) (weatherResp : TransportResult)
    (create : CompletionRequest → Except Unit CompletionResponse) (r : ChatResponse)
    (h : chat req weatherResp create = .ok r) :
    get_mandi_prices.map Prod.fst = ["wheat", "cotton", "rice", "sugarcane", "maize"] ∧
    get_mandi_prices.lookup "wheat" = some ⟨4200, "40kg", "up"⟩ ∧
    pricesEndpoint = get_mandi_prices ∧
    r.prices = get_mandi_prices := by
  refine ⟨rfl, rfl, rfl, ?_⟩
  obtain ⟨w, presp, c, cs, -, -, -, hshape⟩ := chat_ok_shape req weatherResp create r h
  rw [hshape]

/-- C8 witness: a concrete successful run returns the full static table. -/
theorem c8_price_table_witness :
    get_mandi_prices.map Prod.fst = ["wheat", "cotton", "rice", "sugarcane", "maize"] ∧
    get_mandi_prices.lookup "wheat" = some ⟨4200, "40kg", "up"⟩ ∧
    pricesEndpoint = get_mandi_prices ∧
    ({ response := "ok", weather := some (.dict []), prices := get_mandi_prices,
       model := chatModel { message := "hi" }, latency_ms := 42 } : ChatResponse).prices =
      get_mandi_prices :=
  c8_price_table { message := "hi" } (.ok 200 (.dict []))
    (fun _ => .ok sampleResponse) _ rfl

set_option maxRecDepth 8192 in
/-- C10: the context blob depends only on the weather snapshot's `current`
entry and on the wheat, cotton and rice rows of the price table; with null
weather and the static table it is exactly the literal text below —
showing `N/A` for weather and omitting sugarcane and maize, whose names
and prices never appear in it. -/
theorem c10_context_content (w w' : PyVal) (p p' : List (String × PriceEntry))
    (hcur : pyGet w "current" = pyGet w' "current")
    (hwheat : p.lookup "wheat" = p'.lookup "wheat")
    (hcotton : p.lookup "cotton" = p'.lookup "cotton")
    (hrice : p.lookup "rice" = p'.lookup "rice") :
    build_context (some w) p = build_context (some w') p' ∧
    build_context none get_mandi_prices =
      "\nCurrent Weather: N/A\nMandi Prices (PKR): Wheat: 4200/40kg, \nCotton: 8500, Rice: 5800\n" ∧
    strContains (build_context none get_mandi_prices) "N/A" ∧
    ¬ strContains (build_context none get_mandi_prices) "350" ∧
    ¬ strContains (build_context none get_mandi_prices) "2800" ∧
    ¬ strContains (build_context none get_mandi_prices) "sugarcane" ∧
    ¬ strContains (build_context none get_mandi_prices) "maize" := by
  refine ⟨?_, by decide, by decide, by decide, by decide, by decide, by decide⟩
  simp [build_context, priceLookup, hcur, hwheat, hcotton, hrice]

/-- C10 witness: two weather snapshots agreeing on `current` (one with an
extra `daily` entry) produce the same context, and the null-weather context
is the expected literal. -/
theorem c10_context_content_witness :
    build_context (some (.dict [("current", .int 30)])) get_mandi_prices =
      build_context (some (.dict [("current", .int 30), ("daily", .int 5)])) get_mandi_prices ∧
    build_context none get_mandi_prices =
      "\nCurrent Weather: N/A\nMandi Prices (PKR): Wheat: 4200/40kg, \nCotton: 8500, Rice: 5800\n" :=
  ⟨(c10_context_content (.dict [("current", .int 30)])
      (.dict [("current", .int 30), ("daily", .int 5)])
      get_mandi_prices get_mandi_prices rfl rfl rfl rfl).1,
   (c10_context_content (.dict [("current", .int 30)])
      (.dict [("current", .int 30), ("daily", .int 5)])
      get_mandi_prices get_mandi_prices rfl rfl rfl rfl).2.1⟩

end KissanDost
